import Mathlib

/-!
Verification development for the offline-first synchronization engine of the
project-tree repository.

The definitions below are a shallow embedding of the TypeScript sources:

- OfflineService.ts: the operation queue, the sync scheduler
  (syncPendingOperations), connectivity handling (handleConnectionChange),
  enqueueing (queueOperation), local writes (createInteraction), and the
  status notification bus (addSyncStatusListener, notifySyncStatusListeners).
- ProcoreAPI.ts: the axios response interceptor (401 refresh-and-retry with
  the refreshInProgress single-flight flag) and the Supabase-sync circuit
  breaker of fetchFromProcoreOnly (useSyncToSupabase with the 5-minute
  re-enable timer).

The Supabase sync_queue table is modeled as the insertion-ordered list of its
rows; the batch query (eq status pending, order timestamp ascending, limit 10)
is modeled as a stable sort by timestamp of that list, so ties keep insertion
order.  The remote delivery collaborator (processOperation and the network in
general) is a parameter of every function that awaits it, so that mocked
successes and failures can be expressed.  JavaScript is single threaded: a
run of code between two awaits executes atomically, which the step functions
below reflect.
-/

namespace ProjectTree

/-- Action field of a queued operation, from the SyncOperation interface of
OfflineService.ts. -/
inductive OpAction
  | create
  | update
  | delete
deriving DecidableEq, Repr

/-- Status field of a queued operation: pending, failed or synced. -/
inductive OpStatus
  | pending
  | failed
  | synced
deriving DecidableEq, Repr

/-- A row of the sync_queue table, from the SyncOperation interface of
OfflineService.ts.  The data payload is represented by the id of the entity
it concerns (dataId), which is all the engine reads from it. -/
structure SyncOperation where
  id : String
  action : OpAction
  timestamp : Nat
  resource : String
  dataId : String
  status : OpStatus
  retryCount : Nat
  error : Option String := none
  lastSync : Option Nat := none
deriving DecidableEq, Repr

/-- The snapshot broadcast to listeners, from the SyncStatusEvent interface
of OfflineService.ts. -/
structure SyncStatusEvent where
  isOnline : Bool
  pendingCount : Nat
  syncInProgress : Bool
  lastSyncTime : Option Nat
deriving DecidableEq, Repr

/-- A row of the local interactions table as far as the offline engine
touches it: the entity id plus the _local_status and _sync_pending flags
written by createInteraction, updateInteraction and deleteInteraction. -/
structure MirrorRecord where
  id : String
  localStatus : String
  syncPending : Bool
deriving DecidableEq, Repr

/-- The mutable fields of the OfflineService singleton together with the
Supabase tables it owns.  notifications is the log of snapshots handed to
notifySyncStatusListeners, in order. -/
structure ServiceState where
  isInitialized : Bool
  isOnline : Bool
  pendingSyncCount : Nat
  isSyncing : Bool
  lastSyncTime : Option Nat
  queue : List SyncOperation
  interactionsTable : List MirrorRecord
  notifications : List SyncStatusEvent
deriving DecidableEq, Repr

/-- The snapshot built at the top of notifySyncStatusListeners. -/
def currentStatus (s : ServiceState) : SyncStatusEvent :=
  { isOnline := s.isOnline
    pendingCount := s.pendingSyncCount
    syncInProgress := s.isSyncing
    lastSyncTime := s.lastSyncTime }

/-- notifySyncStatusListeners of OfflineService.ts: broadcast the current
snapshot.  The broadcast itself is recorded in the notifications log; the
per-listener delivery loop is modeled separately (notifyLoop below). -/
def notifySyncStatusListeners (s : ServiceState) : ServiceState :=
  { s with notifications := s.notifications ++ [currentStatus s] }

/-- Number of sync_queue rows whose status is pending: the count query of
refreshPendingCount. -/
def countPending (q : List SyncOperation) : Nat :=
  (q.filter (fun op => op.status == OpStatus.pending)).length

/-- refreshPendingCount of OfflineService.ts: if the service is not
initialized the count is zeroed; otherwise the pending rows are counted and
listeners are notified when the count changed. -/
def refreshPendingCount (s : ServiceState) : ServiceState :=
  if !s.isInitialized then { s with pendingSyncCount := 0 }
  else
    let newCount := countPending s.queue
    let s1 := { s with pendingSyncCount := newCount }
    if s.pendingSyncCount != newCount then notifySyncStatusListeners s1 else s1

/-- Timestamp comparison used to model the order clause of the batch
query. -/
def tsle (a b : SyncOperation) : Prop :=
  a.timestamp ≤ b.timestamp

instance : DecidableRel tsle := fun a b => Nat.decLe a.timestamp b.timestamp

instance : IsTotal SyncOperation tsle :=
  ⟨fun a b => Nat.le_total a.timestamp b.timestamp⟩

instance : IsTrans SyncOperation tsle :=
  ⟨fun _ _ _ hab hbc => Nat.le_trans hab hbc⟩

/-- The batch query of syncPendingOperations as the scheduler model runs
it: select rows with status pending, order by timestamp ascending, limit.
The source query has no secondary sort key, so the database leaves the
relative order of rows with equal timestamps unspecified; validBatch below
captures that contract.  The scheduler model executes one fixed allowed
result of it, obtained by a stable sort of the insertion-ordered row list,
which resolves ties to insertion order. -/
def pendingBatch (q : List SyncOperation) (limit : Nat) : List SyncOperation :=
  (((q.filter (fun op => op.status == OpStatus.pending)).insertionSort tsle).take limit)

/-- The contract the batch query actually guarantees: the pending rows of
the table are arranged in some order that is non-decreasing in timestamp -
the order of rows with equal timestamps is unspecified - and the first
limit rows of that arrangement are returned.  validBatch q limit b states
that b is a possible result of the query on table q. -/
def validBatch (q : List SyncOperation) (limit : Nat)
    (b : List SyncOperation) : Prop :=
  ∃ σ : List SyncOperation,
    List.Perm σ (q.filter (fun op => op.status == OpStatus.pending)) ∧
    σ.Pairwise tsle ∧
    b = σ.take limit

/-- Outcome of one delivery attempt through the remote collaborator
(processOperation plus the network): resolution or a thrown error. -/
inductive DeliveryResult
  | ok
  | err (msg : String)
deriving DecidableEq, Repr

/-- The conditional row update of the sync loop of syncPendingOperations,
applied to one table row o: rows whose id matches the processed operation
are updated (the eq id clause of the update), others are untouched.  On
success the row becomes synced with last_sync set; on a thrown error
retryCount is incremented from the fetched snapshot and status becomes
failed when it reaches 3, else stays pending. -/
def applyOne (res : DeliveryResult) (op : SyncOperation) (now : Nat)
    (o : SyncOperation) : SyncOperation :=
  match res with
  | DeliveryResult.ok =>
      if o.id == op.id then
        { o with status := OpStatus.synced, lastSync := some now }
      else o
  | DeliveryResult.err msg =>
      let retryCount := op.retryCount + 1
      let newStatus : OpStatus :=
        if retryCount ≥ 3 then OpStatus.failed else OpStatus.pending
      if o.id == op.id then
        { o with status := newStatus, retryCount := retryCount,
                 error := some msg }
      else o

/-- The per-operation body of the sync loop: the conditional update run
over every row of the table. -/
def applyDelivery (res : DeliveryResult) (op : SyncOperation) (now : Nat)
    (q : List SyncOperation) : List SyncOperation :=
  q.map (applyOne res op now)

/-- The for-loop of syncPendingOperations over the fetched batch, threading
the table through the per-operation updates. -/
def processBatch (deliver : SyncOperation → DeliveryResult) (now : Nat)
    (q : List SyncOperation) : List SyncOperation → List SyncOperation
  | [] => q
  | op :: rest => processBatch deliver now (applyDelivery (deliver op) op now q) rest

/-- Result of one invocation of syncPendingOperations: the state it leaves,
whether the full-batch branch scheduled a follow-up call via setTimeout, and
the ids of the operations whose delivery was attempted, in attempt order. -/
structure PassResult where
  state : ServiceState
  scheduledFollowUp : Bool
  attempted : List String
deriving DecidableEq, Repr

/-- syncPendingOperations of OfflineService.ts, one invocation.  Entry
guard: not initialized, offline or already syncing returns at once.  Then
isSyncing is set and listeners notified; the batch of at most 10 pending
rows is fetched; an empty batch resets isSyncing, stamps lastSyncTime and
notifies; otherwise each operation is processed in batch order, the pending
count is refreshed and lastSyncTime stamped; if the batch was full and rows
are still pending a follow-up call is scheduled (leaving isSyncing true,
exactly as the source does), else isSyncing is reset and listeners are
notified. -/
def syncPendingOperations (deliver : SyncOperation → DeliveryResult)
    (now : Nat) (s : ServiceState) : PassResult :=
  if !s.isInitialized || !s.isOnline || s.isSyncing then
    { state := s, scheduledFollowUp := false, attempted := [] }
  else
    let s1 := notifySyncStatusListeners { s with isSyncing := true }
    let operations := pendingBatch s1.queue 10
    if operations.isEmpty then
      let s2 := { s1 with isSyncing := false, lastSyncTime := some now }
      { state := notifySyncStatusListeners s2, scheduledFollowUp := false,
        attempted := [] }
    else
      let q1 := processBatch deliver now s1.queue operations
      let s2 := refreshPendingCount { s1 with queue := q1 }
      let s3 := { s2 with lastSyncTime := some now }
      if operations.length == 10 && decide (s3.pendingSyncCount > 0) then
        { state := s3, scheduledFollowUp := true,
          attempted := operations.map (fun op => op.id) }
      else
        { state := notifySyncStatusListeners { s3 with isSyncing := false },
          scheduledFollowUp := false,
          attempted := operations.map (fun op => op.id) }

/-- Runs syncPendingOperations and then every follow-up call it schedules
through setTimeout, up to the given fuel.  Each follow-up is a fresh
invocation of syncPendingOperations on the state the previous one left. -/
def runSyncChain (deliver : SyncOperation → DeliveryResult) (now : Nat) :
    Nat → ServiceState → ServiceState
  | 0, s => s
  | fuel + 1, s =>
      let r := syncPendingOperations deliver now s
      if r.scheduledFollowUp then runSyncChain deliver now fuel r.state
      else r.state

/-- A sequence of separate invocations of syncPendingOperations, one per
timer tick or trigger, each running on the state the previous one left. -/
def iterateSyncPasses (deliver : SyncOperation → DeliveryResult) (now : Nat) :
    Nat → ServiceState → ServiceState
  | 0, s => s
  | n + 1, s =>
      iterateSyncPasses deliver now n (syncPendingOperations deliver now s).state

/-- Result of queueOperation: the state after the insert and count refresh,
the boolean promise the method resolves with, and whether its online branch
issued a fire-and-forget syncPendingOperations call (the call itself runs as
a later event and is modeled by applying syncPendingOperations to the
resulting state). -/
structure EnqueueResult where
  state : ServiceState
  ok : Bool
  triggeredSync : Bool
deriving DecidableEq, Repr

/-- queueOperation of OfflineService.ts.  insertFails injects a
storage-layer error on the sync_queue insert: the source catches it, logs
and resolves false, leaving the table unchanged.  On success the row is
appended with status pending and retryCount 0, the pending count refreshed,
and a sync is triggered when online and not already syncing. -/
def queueOperation (insertFails : Bool) (now : Nat) (action : OpAction)
    (resource dataId : String) (s : ServiceState) : EnqueueResult :=
  if !s.isInitialized then { state := s, ok := false, triggeredSync := false }
  else if insertFails then { state := s, ok := false, triggeredSync := false }
  else
    let op : SyncOperation :=
      { id := resource ++ "-" ++ dataId ++ "-" ++ toString now
        action := action
        timestamp := now
        resource := resource
        dataId := dataId
        status := OpStatus.pending
        retryCount := 0 }
    let s1 := refreshPendingCount { s with queue := s.queue ++ [op] }
    { state := s1, ok := true,
      triggeredSync := s1.isOnline && !s1.isSyncing }

/-- createInteraction of OfflineService.ts.  The insert into the
interactions table throws on a storage error, which rejects the returned
promise (Except.error).  Afterwards queueOperation is awaited and its
boolean result is discarded, exactly as in the source; the method then
resolves with the created interaction regardless of that boolean. -/
def createInteraction (interactionsInsertFails queueInsertFails : Bool)
    (now : Nat) (interactionId : String) (s : ServiceState) :
    Except String ServiceState :=
  if interactionsInsertFails then Except.error "interactions insert failed"
  else
    let s1 := { s with interactionsTable :=
        s.interactionsTable ++ [{ id := interactionId, localStatus := "created",
                                  syncPending := true }] }
    let r := queueOperation queueInsertFails now OpAction.create "interaction"
        interactionId s1
    Except.ok r.state

/-- handleConnectionChange of OfflineService.ts, driven by the environment
network flag navOnline.  On an offline-to-online transition the source fires
syncPendingOperations without awaiting it; the model runs that sync chain to
completion before appending the transition notification, which only reorders
notification interleaving.  Every call ends by notifying listeners. -/
def handleConnectionChange (deliver : SyncOperation → DeliveryResult)
    (now fuel : Nat) (navOnline : Bool) (s : ServiceState) : ServiceState :=
  let wasOnline := s.isOnline
  let s1 := { s with isOnline := navOnline }
  let s2 := if !wasOnline && navOnline then runSyncChain deliver now fuel s1 else s1
  notifySyncStatusListeners s2

/-- A registered sync status listener: an identifier plus whether its
callback throws when invoked. -/
structure Listener where
  id : Nat
  throws : Bool
deriving DecidableEq, Repr

/-- Invoking a listener callback with a snapshot: a throwing listener raises
an exception, any other returns normally. -/
def callListener (l : Listener) (_ev : SyncStatusEvent) : Except String Unit :=
  if l.throws then Except.error "listener callback threw" else Except.ok ()

/-- The listener array of OfflineService together with the log of every
callback invocation performed, in order. -/
structure BusState where
  listeners : List Listener
  invoked : List (Nat × SyncStatusEvent)
deriving DecidableEq, Repr

/-- The forEach loop of notifySyncStatusListeners: each listener is invoked
inside its own try-catch, so a thrown exception is logged and the loop
continues with the next listener. -/
def notifyLoop (ev : SyncStatusEvent) :
    List Listener → List (Nat × SyncStatusEvent) → List (Nat × SyncStatusEvent)
  | [], log => log
  | l :: rest, log =>
      match callListener l ev with
      | Except.ok _ => notifyLoop ev rest (log ++ [(l.id, ev)])
      | Except.error _ => notifyLoop ev rest (log ++ [(l.id, ev)])

/-- The delivery step of the notification bus over its listener list. -/
def notifyListeners (ev : SyncStatusEvent) (b : BusState) : BusState :=
  { b with invoked := notifyLoop ev b.listeners b.invoked }

/-- addSyncStatusListener of OfflineService.ts: the callback is pushed onto
the listener array first, then immediately invoked with the current snapshot
with no exception guard.  A result of Except.ok states that the unsubscribe
closure was returned to the subscriber; Except.error states that the
callback exception propagated out of addSyncStatusListener, so no
unsubscribe closure was ever returned, while the push persists. -/
def addSyncStatusListener (l : Listener) (current : SyncStatusEvent)
    (b : BusState) : BusState × Except String Unit :=
  let b1 := { b with listeners := b.listeners ++ [l] }
  match callListener l current with
  | Except.ok _ => ({ b1 with invoked := b1.invoked ++ [(l.id, current)] }, Except.ok ())
  | Except.error e =>
      ({ b1 with invoked := b1.invoked ++ [(l.id, current)] }, Except.error e)

/-!
Token-guarded request pipeline of ProcoreAPI.ts.

JavaScript runs the rejection handler of the response interceptor atomically
up to its first await.  The condition guarding the refresh branch
(status 401, a refresh callback, the request not yet retried, no refresh in
progress) and the assignment refreshInProgress := true occur in that
synchronous prefix, so the check-then-set pair is one atomic step.  A caller
that finds refreshInProgress already true takes no refresh branch at all:
its error falls through to the final rejection.
-/

/-- One event of the concurrent-delivery scenario: a request rejection with
status 401 reaching the response interceptor, or the resumption of the
in-flight refresh (the awaited tokenRefreshCallback resolving with a fresh
token and the retried request succeeding). -/
inductive PipeEvent
  | fail401 (req : Nat)
  | refreshDone
deriving DecidableEq, Repr

/-- State of the interceptor shared across concurrent deliveries:
the single-flight flag, how many times the credential provider refresh was
invoked, which request started the in-flight refresh, the requests whose
errors were rejected straight to their callers, and the requests that were
retried after the refresh and resolved. -/
structure PipelineState where
  refreshInProgress : Bool
  refreshCalls : Nat
  awaitingRefresh : Option Nat
  rejected : List Nat
  retriedOk : List Nat
deriving DecidableEq, Repr

/-- One event-loop step of the response interceptor of ProcoreAPI.ts for
fresh (not yet retried) requests.  A 401 arriving while no refresh is in
flight marks the request retried, sets the flag and invokes the refresh; a
401 arriving while the flag is set fails the guard and the error is rejected
to the caller immediately.  The refresh resolving clears the flag in the
finally block and the request that started it retries with the new token. -/
def stepPipeline (hasCallback : Bool) (st : PipelineState) (e : PipeEvent) :
    PipelineState :=
  match e with
  | PipeEvent.fail401 r =>
      if hasCallback && !st.refreshInProgress then
        { st with refreshInProgress := true
                  refreshCalls := st.refreshCalls + 1
                  awaitingRefresh := some r }
      else
        { st with rejected := st.rejected ++ [r] }
  | PipeEvent.refreshDone =>
      match st.awaitingRefresh with
      | some r =>
          { st with refreshInProgress := false
                    awaitingRefresh := none
                    retriedOk := st.retriedOk ++ [r] }
      | none => { st with refreshInProgress := false }

/-- Run a list of pipeline events from a starting state. -/
def runPipeline (hasCallback : Bool) (events : List PipeEvent)
    (st : PipelineState) : PipelineState :=
  events.foldl (stepPipeline hasCallback) st

/-- The idle pipeline: no refresh in flight, nothing recorded. -/
def initPipeline : PipelineState :=
  { refreshInProgress := false, refreshCalls := 0, awaitingRefresh := none,
    rejected := [], retriedOk := [] }

/-- The scenario of ten deliveries failing with 401 concurrently: all ten
rejection handlers run before the awaited refresh of the first resolves. -/
def tenConcurrent401 : List PipeEvent :=
  ((List.range 10).map PipeEvent.fail401) ++ [PipeEvent.refreshDone]

/-- Server behavior for a single request lifecycle: the response to the
attempt with the given index (0 the original send, 1 the retry). -/
inductive HttpResponse
  | success
  | httpError (status : Nat)
deriving DecidableEq, Repr

/-- Outcome of one request through the interceptor as its caller sees it. -/
inductive CallOutcome
  | resolved
  | rejectedStatus (status : Nat)
  | rejectedRefresh (msg : String)
deriving DecidableEq, Repr

/-- Trace of one request lifecycle: its outcome, how many times it was sent
to the server, and how many credential refreshes it triggered. -/
structure RequestTrace where
  outcome : CallOutcome
  attempts : Nat
  refreshAttempts : Nat
deriving DecidableEq, Repr

/-- The response interceptor of ProcoreAPI.ts for one request processed with
no concurrent refresh in flight, split on the retried flag of the request.
With the flag set (the request was already retried once) a 401 fails the
guard and is rejected to the caller.  With the flag clear, a 401 with a
refresh callback available sets the flag, refreshes, and when the refresh
yields a fresh token resends the request through the same interceptor; a
refresh returning the same token throws and rejects the request. -/
def interceptOn (server : Nat → HttpResponse) (hasCallback freshToken : Bool) :
    Bool → Nat → RequestTrace
  | true, attempt =>
      match server attempt with
      | HttpResponse.success =>
          { outcome := CallOutcome.resolved, attempts := 1, refreshAttempts := 0 }
      | HttpResponse.httpError st =>
          { outcome := CallOutcome.rejectedStatus st, attempts := 1,
            refreshAttempts := 0 }
  | false, attempt =>
      match server attempt with
      | HttpResponse.success =>
          { outcome := CallOutcome.resolved, attempts := 1, refreshAttempts := 0 }
      | HttpResponse.httpError st =>
          if st == 401 && hasCallback then
            if freshToken then
              let t := interceptOn server hasCallback freshToken true (attempt + 1)
              { t with attempts := t.attempts + 1,
                       refreshAttempts := t.refreshAttempts + 1 }
            else
              { outcome := CallOutcome.rejectedRefresh "Token refresh returned same token",
                attempts := 1, refreshAttempts := 1 }
          else
            { outcome := CallOutcome.rejectedStatus st, attempts := 1,
              refreshAttempts := 0 }
termination_by b _ => if b then 0 else 1
decreasing_by decide

/-- A request entering the pipeline: the retried flag starts clear and the
first send is attempt 0. -/
def sendRequest (server : Nat → HttpResponse) (hasCallback freshToken : Bool) :
    RequestTrace :=
  interceptOn server hasCallback freshToken false 0

/-!
Circuit breaker of fetchFromProcoreOnly in ProcoreAPI.ts: a detected
row-level-security permission error while syncing fetched interactions to
Supabase clears useSyncToSupabase and arms a setTimeout that sets it back
after 5 minutes; while the flag is clear the sync block is skipped entirely.
-/

/-- Result of supabaseService.syncInteractions as consumed by
fetchFromProcoreOnly: success, a detected row-level-security permission
error, or another failure. -/
inductive SupabaseSyncResult
  | success (count : Nat)
  | rlsError (msg : String)
  | failure (msg : String)
deriving DecidableEq, Repr

/-- State of the ProcoreAPI instance relevant to the breaker: the sync
enable flag, the pending re-enable timer deadline, and how many credential
refreshes have been invoked. -/
structure ApiSyncState where
  useSyncToSupabase : Bool
  reEnableAt : Option Nat
  refreshCalls : Nat
deriving DecidableEq, Repr

/-- Firing of the armed re-enable setTimeout: once its deadline is reached
the flag is set back and the timer cleared. -/
def fireReEnable (now : Nat) (st : ApiSyncState) : ApiSyncState :=
  match st.reEnableAt with
  | some t =>
      if t ≤ now then
        { st with useSyncToSupabase := true, reEnableAt := none }
      else st
  | none => st

/-- The sync-to-Supabase block of fetchFromProcoreOnly at time now, given
the guard inputs of its condition (interactions fetched, a project id set,
the syncToSupabase argument) and the result the Supabase service reports.
Returns the new state and whether a sync delivery was attempted.  Due
timers fire before the block runs.  On a reported row-level-security error
the flag is cleared and the 5-minute re-enable timer armed; no credential
refresh is invoked on that path. -/
def syncInteractionsStep (now : Nat)
    (hasInteractions projectIdSet syncFlag : Bool)
    (result : SupabaseSyncResult) (st : ApiSyncState) : ApiSyncState × Bool :=
  let st1 := fireReEnable now st
  if hasInteractions && st1.useSyncToSupabase && projectIdSet && syncFlag then
    match result with
    | SupabaseSyncResult.rlsError _ =>
        ({ st1 with useSyncToSupabase := false,
                    reEnableAt := some (now + 5 * 60 * 1000) }, true)
    | _ => (st1, true)
  else (st1, false)

/-!
Concrete scenario inputs used to settle the claims, plus one auxiliary
definition used only in proofs about the sync loop.
-/

/-- A delivery collaborator mocked to succeed on every operation. -/
def deliverAllOk : SyncOperation → DeliveryResult :=
  fun _ => DeliveryResult.ok

/-- A freshly constructed service whose environment reports offline: the
constructor ran (isInitialized true), no queue rows, no listeners notified
yet. -/
def offlineService : ServiceState :=
  { isInitialized := true, isOnline := false, pendingSyncCount := 0,
    isSyncing := false, lastSyncTime := none, queue := [],
    interactionsTable := [], notifications := [] }

/-- A freshly constructed service whose environment reports online and
whose queue is empty. -/
def emptyOnlineService : ServiceState :=
  { offlineService with isOnline := true }

/-- The state after n successful enqueues while offline: operation k is a
create of entity k issued at time k. -/
def enqueueAll (n : Nat) : ServiceState :=
  (List.range n).foldl
    (fun s k =>
      (queueOperation false k OpAction.create "interaction" (toString k) s).state)
    offlineService

/-- Auxiliary for proofs: the composition of the conditional row updates of
a whole batch, as applied to one row.  processBatch equals mapping this
function over the table (theorem processBatch_eq_map below). -/
def chainApply (deliver : SyncOperation → DeliveryResult) (now : Nat) :
    List SyncOperation → SyncOperation → SyncOperation
  | [], o => o
  | b :: bs, o => chainApply deliver now bs (applyOne (deliver b) b now o)

/-- A pending update of entity A enqueued at millisecond 5; with opTieB it
forms a timestamp tie across distinct entities, which the id format and the
primary key permit. -/
def opTieA : SyncOperation :=
  { id := "interaction-A-5", action := OpAction.update, timestamp := 5,
    resource := "interaction", dataId := "A", status := OpStatus.pending,
    retryCount := 0 }

/-- A pending create of entity B enqueued at the same millisecond 5 as
opTieA. -/
def opTieB : SyncOperation :=
  { id := "interaction-B-5", action := OpAction.create, timestamp := 5,
    resource := "interaction", dataId := "B", status := OpStatus.pending,
    retryCount := 0 }

/-- A pending update of entity A enqueued at millisecond 1, before
opFifoC. -/
def opFifoU : SyncOperation :=
  { id := "interaction-A-1", action := OpAction.update, timestamp := 1,
    resource := "interaction", dataId := "A", status := OpStatus.pending,
    retryCount := 0 }

/-- A pending create of entity A enqueued at millisecond 2, after
opFifoU. -/
def opFifoC : SyncOperation :=
  { id := "interaction-A-2", action := OpAction.create, timestamp := 2,
    resource := "interaction", dataId := "A", status := OpStatus.pending,
    retryCount := 0 }

/-!
Helper lemmas.  Broadcasting a snapshot touches only the notifications log;
refreshing the pending count touches only the count and the log.
-/

@[simp] theorem notify_isInitialized (s : ServiceState) :
    (notifySyncStatusListeners s).isInitialized = s.isInitialized := rfl

@[simp] theorem notify_isOnline (s : ServiceState) :
    (notifySyncStatusListeners s).isOnline = s.isOnline := rfl

@[simp] theorem notify_pendingSyncCount (s : ServiceState) :
    (notifySyncStatusListeners s).pendingSyncCount = s.pendingSyncCount := rfl

@[simp] theorem notify_isSyncing (s : ServiceState) :
    (notifySyncStatusListeners s).isSyncing = s.isSyncing := rfl

@[simp] theorem notify_lastSyncTime (s : ServiceState) :
    (notifySyncStatusListeners s).lastSyncTime = s.lastSyncTime := rfl

@[simp] theorem notify_queue (s : ServiceState) :
    (notifySyncStatusListeners s).queue = s.queue := rfl

@[simp] theorem notify_interactionsTable (s : ServiceState) :
    (notifySyncStatusListeners s).interactionsTable = s.interactionsTable := rfl

@[simp] theorem notify_notifications_length (s : ServiceState) :
    (notifySyncStatusListeners s).notifications.length =
      s.notifications.length + 1 := by
  simp [notifySyncStatusListeners]

@[simp] theorem refresh_isInitialized (s : ServiceState) :
    (refreshPendingCount s).isInitialized = s.isInitialized := by
  unfold refreshPendingCount
  split
  · rfl
  · dsimp only
    split <;> rfl

@[simp] theorem refresh_isOnline (s : ServiceState) :
    (refreshPendingCount s).isOnline = s.isOnline := by
  unfold refreshPendingCount
  split
  · rfl
  · dsimp only
    split <;> rfl

@[simp] theorem refresh_isSyncing (s : ServiceState) :
    (refreshPendingCount s).isSyncing = s.isSyncing := by
  unfold refreshPendingCount
  split
  · rfl
  · dsimp only
    split <;> rfl

@[simp] theorem refresh_lastSyncTime (s : ServiceState) :
    (refreshPendingCount s).lastSyncTime = s.lastSyncTime := by
  unfold refreshPendingCount
  split
  · rfl
  · dsimp only
    split <;> rfl

@[simp] theorem refresh_queue (s : ServiceState) :
    (refreshPendingCount s).queue = s.queue := by
  unfold refreshPendingCount
  split
  · rfl
  · dsimp only
    split <;> rfl

@[simp] theorem refresh_interactionsTable (s : ServiceState) :
    (refreshPendingCount s).interactionsTable = s.interactionsTable := by
  unfold refreshPendingCount
  split
  · rfl
  · dsimp only
    split <;> rfl

@[simp] theorem refresh_pendingSyncCount (s : ServiceState) :
    (refreshPendingCount s).pendingSyncCount =
      if s.isInitialized then countPending s.queue else 0 := by
  unfold refreshPendingCount
  split
  · simp_all
  · dsimp only
    split <;> simp_all

/-- The sync loop over a batch equals mapping the composed conditional row
updates over the table. -/
theorem processBatch_eq_map (deliver : SyncOperation → DeliveryResult)
    (now : Nat) :
    ∀ (batch q : List SyncOperation),
      processBatch deliver now q batch = q.map (chainApply deliver now batch)
  | [], q => by
      simp [processBatch, chainApply]
  | b :: bs, q => by
      rw [processBatch, applyDelivery, processBatch_eq_map deliver now bs,
        List.map_map]
      rfl

/-- The conditional row update never changes the row id. -/
theorem applyOne_id (res : DeliveryResult) (op : SyncOperation) (now : Nat)
    (o : SyncOperation) : (applyOne res op now o).id = o.id := by
  cases res <;> simp only [applyOne] <;> split <;> rfl

/-- Composed row updates never change the row id. -/
theorem chainApply_id (deliver : SyncOperation → DeliveryResult) (now : Nat) :
    ∀ (bs : List SyncOperation) (o : SyncOperation),
      (chainApply deliver now bs o).id = o.id
  | [], o => rfl
  | b :: bs, o => by
      rw [chainApply, chainApply_id deliver now bs, applyOne_id]

/-- With an always-succeeding delivery, processing a batch turns exactly the
rows whose id occurs in the batch into synced rows and leaves every other
row status untouched. -/
theorem chainApply_status_ok (deliver : SyncOperation → DeliveryResult)
    (now : Nat) (hok : ∀ x, deliver x = DeliveryResult.ok) :
    ∀ (bs : List SyncOperation) (o : SyncOperation),
      (chainApply deliver now bs o).status =
        if o.id ∈ bs.map (fun b => b.id) then OpStatus.synced else o.status
  | [], o => by simp [chainApply]
  | b :: bs, o => by
      rw [chainApply, chainApply_status_ok deliver now hok bs]
      by_cases h : o.id = b.id
      · simp [hok b, applyOne, h]
      · simp [hok b, applyOne, h]

/-- When at most limit rows are pending, the batch is a permutation of all
pending rows. -/
theorem pendingBatch_perm_of_le (q : List SyncOperation) (limit : Nat)
    (h : countPending q ≤ limit) :
    List.Perm (pendingBatch q limit)
      (q.filter (fun op => op.status == OpStatus.pending)) := by
  unfold pendingBatch
  have hperm := List.perm_insertionSort tsle
      (q.filter (fun op => op.status == OpStatus.pending))
  rw [List.take_of_length_le]
  · exact hperm
  · rw [hperm.length_eq]
    exact h

/-- With an always-succeeding delivery and at most 10 pending rows,
processing one batch leaves no pending row. -/
theorem countPending_processBatch_ok (deliver : SyncOperation → DeliveryResult)
    (now : Nat) (q : List SyncOperation)
    (hok : ∀ x, deliver x = DeliveryResult.ok)
    (hle : countPending q ≤ 10) :
    countPending (processBatch deliver now q (pendingBatch q 10)) = 0 := by
  rw [processBatch_eq_map]
  unfold countPending
  rw [List.length_eq_zero, List.filter_eq_nil_iff]
  intro a ha
  obtain ⟨o, ho, rfl⟩ := List.mem_map.1 ha
  rw [chainApply_status_ok deliver now hok]
  by_cases hmem : o.id ∈ (pendingBatch q 10).map (fun b => b.id)
  · simp [hmem]
  · rw [if_neg hmem]
    intro hpend
    apply hmem
    have hofilter : o ∈ q.filter (fun op => op.status == OpStatus.pending) :=
      List.mem_filter.2 ⟨ho, hpend⟩
    exact List.mem_map_of_mem (fun b => b.id)
      ((pendingBatch_perm_of_le q 10 hle).mem_iff.2 hofilter)

/-- A batch fetched with a positive limit is empty exactly when no row is
pending. -/
theorem pendingBatch_isEmpty_iff (q : List SyncOperation) (limit : Nat)
    (hlim : 0 < limit) :
    (pendingBatch q limit).isEmpty = true ↔ countPending q = 0 := by
  have hlen :
      ((q.filter (fun op => op.status == OpStatus.pending)).insertionSort
        tsle).length = countPending q :=
    (List.perm_insertionSort tsle _).length_eq
  unfold pendingBatch
  rw [List.isEmpty_iff, List.take_eq_nil_iff]
  constructor
  · rintro (h | h)
    · omega
    · rw [h] at hlen
      simpa using hlen.symm
  · intro h
    right
    rw [← List.length_eq_zero, hlen, h]

/-- One invocation of syncPendingOperations with all deliveries succeeding,
on an initialized online idle state with between 1 and 10 pending rows:
everything pending is delivered and synced, the pending count drops to 0,
isSyncing returns to false and no follow-up pass is scheduled. -/
theorem syncPass_ok_drains (deliver : SyncOperation → DeliveryResult)
    (now : Nat) (s : ServiceState)
    (hok : ∀ x, deliver x = DeliveryResult.ok)
    (hinit : s.isInitialized = true) (hon : s.isOnline = true)
    (hsy : s.isSyncing = false)
    (hpos : 0 < countPending s.queue) (hle : countPending s.queue ≤ 10) :
    (syncPendingOperations deliver now s).state.pendingSyncCount = 0 ∧
    (syncPendingOperations deliver now s).state.isSyncing = false ∧
    (syncPendingOperations deliver now s).scheduledFollowUp = false ∧
    countPending (syncPendingOperations deliver now s).state.queue = 0 := by
  obtain ⟨ii, io, pc, isy, lt, q, it, nt⟩ := s
  dsimp only at hinit hon hsy hpos hle
  subst hinit hon hsy
  have hnotempty : (pendingBatch q 10).isEmpty = false := by
    rw [Bool.eq_false_iff]
    intro hemp
    rw [pendingBatch_isEmpty_iff q 10 (by omega)] at hemp
    omega
  have hcount0 := countPending_processBatch_ok deliver now q hok hle
  unfold syncPendingOperations
  simp only [Bool.not_true, Bool.or_self, Bool.or_false, Bool.false_or,
    Bool.false_eq_true, if_false, notify_queue, hnotempty,
    refresh_pendingSyncCount, refresh_queue, refresh_isSyncing, hcount0]
  simp [hcount0]

/-- A single-row queue whose row is pending yields that row as the batch. -/
theorem pendingBatch_single_pending (op : SyncOperation)
    (hst : op.status = OpStatus.pending) (limit : Nat) :
    pendingBatch [op] (limit + 1) = [op] := by
  simp [pendingBatch, hst, List.insertionSort, List.orderedInsert]

/-- A single-row queue whose row is not pending yields an empty batch. -/
theorem pendingBatch_single_notPending (op : SyncOperation)
    (hst : (op.status == OpStatus.pending) = false) (limit : Nat) :
    pendingBatch [op] limit = [] := by
  simp [pendingBatch, hst, List.insertionSort]

/-- One pass over a single-row queue whose row is pending, with a delivery
that always throws the error e: the row gets retryCount incremented from
its snapshot and becomes failed exactly when the new count reaches 3; the
scheduler returns to idle and schedules no follow-up. -/
theorem syncPass_single_fail (deliver : SyncOperation → DeliveryResult)
    (now : Nat) (e : String) (hfail : ∀ x, deliver x = DeliveryResult.err e)
    (s : ServiceState) (op : SyncOperation)
    (hinit : s.isInitialized = true) (hon : s.isOnline = true)
    (hsy : s.isSyncing = false) (hq : s.queue = [op])
    (hst : op.status = OpStatus.pending) :
    (syncPendingOperations deliver now s).state.queue =
      [{ op with
          status := if op.retryCount + 1 ≥ 3 then OpStatus.failed
                    else OpStatus.pending,
          retryCount := op.retryCount + 1,
          error := some e }] ∧
    (syncPendingOperations deliver now s).state.isInitialized = true ∧
    (syncPendingOperations deliver now s).state.isOnline = true ∧
    (syncPendingOperations deliver now s).state.isSyncing = false := by
  obtain ⟨ii, io, pc, isy, lt, q, it, nt⟩ := s
  dsimp only at hinit hon hsy hq
  subst hinit hon hsy hq
  have hbatch := pendingBatch_single_pending op hst 9
  unfold syncPendingOperations
  simp only [Bool.not_true, Bool.or_self, Bool.or_false, Bool.false_or,
    Bool.false_eq_true, if_false, notify_queue, hbatch, List.isEmpty_cons,
    processBatch, applyDelivery, hfail op, List.map_cons, List.map_nil,
    applyOne, beq_self_eq_true, if_true, refresh_queue, refresh_isSyncing,
    refresh_isOnline, refresh_isInitialized]
  simp

/-- One pass over a single-row queue whose row is not pending: the empty
batch branch leaves the queue untouched and returns the scheduler to
idle. -/
theorem syncPass_single_notPending (deliver : SyncOperation → DeliveryResult)
    (now : Nat) (s : ServiceState) (op : SyncOperation)
    (hinit : s.isInitialized = true) (hon : s.isOnline = true)
    (hsy : s.isSyncing = false) (hq : s.queue = [op])
    (hst : (op.status == OpStatus.pending) = false) :
    (syncPendingOperations deliver now s).state.queue = [op] ∧
    (syncPendingOperations deliver now s).state.isInitialized = true ∧
    (syncPendingOperations deliver now s).state.isOnline = true ∧
    (syncPendingOperations deliver now s).state.isSyncing = false := by
  obtain ⟨ii, io, pc, isy, lt, q, it, nt⟩ := s
  dsimp only at hinit hon hsy hq
  subst hinit hon hsy hq
  have hbatch := pendingBatch_single_notPending op hst 10
  unfold syncPendingOperations
  simp only [Bool.not_true, Bool.or_self, Bool.or_false, Bool.false_or,
    Bool.false_eq_true, if_false, notify_queue, hbatch, List.isEmpty_nil,
    if_true]
  simp

/-- Peeling an iteration of sync passes from the right. -/
theorem iterateSyncPasses_succ (deliver : SyncOperation → DeliveryResult)
    (now : Nat) : ∀ (n : Nat) (s : ServiceState),
    iterateSyncPasses deliver now (n + 1) s =
      (syncPendingOperations deliver now
        (iterateSyncPasses deliver now n s)).state
  | 0, s => rfl
  | n + 1, s => by
      rw [show iterateSyncPasses deliver now (n + 1 + 1) s =
            iterateSyncPasses deliver now (n + 1)
              (syncPendingOperations deliver now s).state from rfl,
        iterateSyncPasses_succ deliver now n,
        show iterateSyncPasses deliver now (n + 1) s =
            iterateSyncPasses deliver now n
              (syncPendingOperations deliver now s).state from rfl]

/-!
The claims.
-/

/-- C2: for an operation whose delivery fails on every attempt, repeated
sync passes increment retryCount once per attempt, keep the operation
pending while retryCount is below the ceiling 3, and move it to failed
exactly when retryCount reaches 3; a failed operation is excluded from
later batches, so after n passes the operation is pending with retryCount n
for n below 3 and failed with retryCount exactly 3 for every n of at least
3 - the ceiling is hit after exactly 3 attempts, not more and not fewer. -/
theorem retry_ceiling_exactly_three (op : SyncOperation)
    (deliver : SyncOperation → DeliveryResult) (e : String) (now : Nat)
    (hfail : ∀ x, deliver x = DeliveryResult.err e)
    (hst : op.status = OpStatus.pending) (hrc : op.retryCount = 0) :
    ∀ n : Nat,
      (iterateSyncPasses deliver now n
          { emptyOnlineService with queue := [op] }).queue =
        [{ op with
            status := if n < 3 then OpStatus.pending else OpStatus.failed,
            retryCount := min n 3,
            error := if n = 0 then op.error else some e }] := by
  obtain ⟨i, a, t, r, d, st, rc, er, ls⟩ := op
  dsimp only at hst hrc
  subst hst hrc
  intro n
  have key : ∀ m : Nat,
      (iterateSyncPasses deliver now m
          { emptyOnlineService with
              queue := [⟨i, a, t, r, d, OpStatus.pending, 0, er, ls⟩] }).queue =
        [⟨i, a, t, r, d,
          (if m < 3 then OpStatus.pending else OpStatus.failed), min m 3,
          (if m = 0 then er else some e), ls⟩] ∧
      (iterateSyncPasses deliver now m
          { emptyOnlineService with
              queue := [⟨i, a, t, r, d, OpStatus.pending, 0, er, ls⟩] }).isInitialized = true ∧
      (iterateSyncPasses deliver now m
          { emptyOnlineService with
              queue := [⟨i, a, t, r, d, OpStatus.pending, 0, er, ls⟩] }).isOnline = true ∧
      (iterateSyncPasses deliver now m
          { emptyOnlineService with
              queue := [⟨i, a, t, r, d, OpStatus.pending, 0, er, ls⟩] }).isSyncing = false := by
    intro m
    induction m with
    | zero => exact ⟨rfl, rfl, rfl, rfl⟩
    | succ k ih =>
        obtain ⟨ihq, ihi, iho, ihs⟩ := ih
        rw [iterateSyncPasses_succ]
        by_cases hk : k < 3
        · have hpend :
              (⟨i, a, t, r, d,
                (if k < 3 then OpStatus.pending else OpStatus.failed), min k 3,
                (if k = 0 then er else some e), ls⟩ : SyncOperation).status =
                OpStatus.pending := by
            simp [hk]
          have res := syncPass_single_fail deliver now e hfail _ _ ihi iho ihs
            ihq hpend
          refine ⟨?_, res.2.1, res.2.2.1, res.2.2.2⟩
          rw [res.1]
          have hmin : min k 3 = k := by omega
          simp only [hmin]
          have h1 : min (k + 1) 3 = k + 1 := by omega
          have h2 : ¬(k + 1 = 0) := by omega
          simp only [h1, if_neg h2]
          split_ifs <;> simp_all <;> omega
        · have hnotp :
              ((⟨i, a, t, r, d,
                (if k < 3 then OpStatus.pending else OpStatus.failed), min k 3,
                (if k = 0 then er else some e), ls⟩ : SyncOperation).status ==
                OpStatus.pending) = false := by
            simp [hk]
          have res := syncPass_single_notPending deliver now _ _ ihi iho ihs
            ihq hnotp
          refine ⟨?_, res.2.1, res.2.2.1, res.2.2.2⟩
          rw [res.1]
          have h1 : min k 3 = 3 := by omega
          have h2 : min (k + 1) 3 = 3 := by omega
          have h3 : ¬(k < 3) := hk
          have h4 : ¬(k + 1 < 3) := by omega
          have h5 : ¬(k = 0) := by omega
          have h6 : ¬(k + 1 = 0) := by omega
          simp only [h1, h2, if_neg h3, if_neg h4, if_neg h5, if_neg h6]
  exact (key n).1

/-- Witness for the retry ceiling theorem: a concrete operation whose
delivery always throws Transient is failed with retryCount 3 after 3
passes. -/
theorem retry_ceiling_exactly_three_witness :
    (iterateSyncPasses (fun _ => DeliveryResult.err "Transient") 7 3
        { emptyOnlineService with
            queue := [{ id := "interaction-A-0", action := OpAction.create,
                        timestamp := 0, resource := "interaction",
                        dataId := "A", status := OpStatus.pending,
                        retryCount := 0 }] }).queue =
      [{ id := "interaction-A-0", action := OpAction.create, timestamp := 0,
         resource := "interaction", dataId := "A", status := OpStatus.failed,
         retryCount := 3, error := some "Transient" }] :=
  retry_ceiling_exactly_three _ _ "Transient" 7 (fun _ => rfl) rfl rfl 3

/-- C1: the code stalls instead of draining.  Eleven operations are
enqueued while offline; the service comes online and every delivery
succeeds.  The first pass processes a full batch of 10 and schedules a
follow-up pass, but it leaves isSyncing true, so the scheduled follow-up
invocation hits the re-entrance guard and returns unchanged without
processing the one remaining pending operation: run to completion, the
queue ends with pendingCount 1 and syncInProgress stuck at true, against
the claimed drain to 0 and return of syncInProgress to false. -/
theorem full_batch_follow_up_pass_is_blocked :
    countPending (enqueueAll 11).queue = 11 ∧
    (enqueueAll 11).isOnline = false ∧
    (syncPendingOperations deliverAllOk 100
        { enqueueAll 11 with isOnline := true }).scheduledFollowUp = true ∧
    (syncPendingOperations deliverAllOk 100
        { enqueueAll 11 with isOnline := true }).state.isSyncing = true ∧
    countPending (syncPendingOperations deliverAllOk 100
        { enqueueAll 11 with isOnline := true }).state.queue = 1 ∧
    syncPendingOperations deliverAllOk 101
        (syncPendingOperations deliverAllOk 100
          { enqueueAll 11 with isOnline := true }).state =
      { state := (syncPendingOperations deliverAllOk 100
          { enqueueAll 11 with isOnline := true }).state,
        scheduledFollowUp := false, attempted := [] } ∧
    (handleConnectionChange deliverAllOk 100 5 true (enqueueAll 11)).pendingSyncCount = 1 ∧
    (handleConnectionChange deliverAllOk 100 5 true (enqueueAll 11)).isSyncing = true := by
  decide

/-- C8: the code swallows enqueue failures.  queueOperation resolves false
exactly on a storage-layer insert failure, but createInteraction discards
that boolean: with the interactions insert succeeding and the sync_queue
insert failing, createInteraction still resolves successfully and the queue
stays empty, so the local-write failure is never surfaced to the caller. -/
theorem enqueue_failure_not_surfaced :
    createInteraction false true 9 "X" emptyOnlineService =
      Except.ok { emptyOnlineService with
        interactionsTable := [{ id := "X", localStatus := "created",
                                syncPending := true }] } ∧
    (queueOperation true 9 OpAction.create "interaction" "X"
        emptyOnlineService).ok = false ∧
    (queueOperation false 9 OpAction.create "interaction" "X"
        emptyOnlineService).ok = true :=
  And.intro rfl (And.intro rfl rfl)

/-- C3 counterexample: ten deliveries fail with 401 concurrently while the
first caller's refresh is in flight.  Exactly one refresh call is made, but
caller 1 (like callers 2 through 9) does not wait for that refresh and does
not share its outcome: its error is rejected to the caller immediately,
refuting the claim that every other concurrent caller waits for the single
refresh and shares its outcome. -/
theorem concurrent_callers_do_not_share_refresh :
    (runPipeline true tenConcurrent401 initPipeline).refreshCalls = 1 ∧
    1 ∈ (runPipeline true tenConcurrent401 initPipeline).rejected ∧
    1 ∉ (runPipeline true tenConcurrent401 initPipeline).retriedOk := by
  decide

/-- C3 amended: with ten concurrent 401 failures, the refreshInProgress
flag ensures exactly one refresh call, and the request that started it is
retried and resolves; the other nine callers take no refresh branch at all
and their errors are rejected to them immediately - they neither wait for
the refresh nor trigger a second one. -/
theorem single_flight_one_refresh_others_rejected :
    runPipeline true tenConcurrent401 initPipeline =
      { refreshInProgress := false, refreshCalls := 1, awaitingRefresh := none,
        rejected := [1, 2, 3, 4, 5, 6, 7, 8, 9], retriedOk := [0] } := by
  decide

/-- C9 counterexample: on an initialized online idle service with an empty
queue, the sync entry point is not a pure no-op: it stamps lastSyncTime and
notifies listeners twice, refuting the claim that the state is left
unchanged with no listener notification and lastSyncTime unmodified. -/
theorem empty_queue_sync_mutates_state :
    emptyOnlineService.isOnline = true ∧
    emptyOnlineService.isSyncing = false ∧
    countPending emptyOnlineService.queue = 0 ∧
    emptyOnlineService.lastSyncTime = none ∧
    emptyOnlineService.notifications = [] ∧
    (syncPendingOperations deliverAllOk 5 emptyOnlineService).state.lastSyncTime = some 5 ∧
    (syncPendingOperations deliverAllOk 5 emptyOnlineService).state.notifications.length = 2 := by
  decide

/-- C4: a request whose delivery fails with 401 and has not yet been
retried gets exactly one refresh-and-retry cycle; the retried request
carries the retried flag, so a second 401 is rejected straight to the
caller, never starting another cycle.  In general a single request
triggers at most one refresh and at most two sends. -/
theorem one_refresh_and_retry_cycle_per_request
    (server : Nat → HttpResponse) (hasCallback freshToken : Bool) :
    (sendRequest server hasCallback freshToken).refreshAttempts ≤ 1 ∧
    (sendRequest server hasCallback freshToken).attempts ≤ 2 ∧
    ((∀ att, server att = HttpResponse.httpError 401) → hasCallback = true →
      freshToken = true →
      sendRequest server hasCallback freshToken =
        { outcome := CallOutcome.rejectedStatus 401, attempts := 2,
          refreshAttempts := 1 }) := by
  refine ⟨?_, ?_, ?_⟩
  · rcases h0 : server 0 with _ | st0 <;>
      rcases h1 : server 1 with _ | st1 <;>
        simp [sendRequest, interceptOn, h0, h1] <;> split_ifs <;> simp
  · rcases h0 : server 0 with _ | st0 <;>
      rcases h1 : server 1 with _ | st1 <;>
        simp [sendRequest, interceptOn, h0, h1] <;> split_ifs <;> simp
  · intro hall hc hf
    subst hc hf
    simp [sendRequest, interceptOn, hall 0, hall 1]

/-- Witness for the refresh-and-retry cycle theorem: a server that always
answers 401 yields one refresh, two sends, and a rejected 401. -/
theorem one_refresh_and_retry_cycle_per_request_witness :
    (sendRequest (fun _ => HttpResponse.httpError 401) true true).refreshAttempts ≤ 1 ∧
    sendRequest (fun _ => HttpResponse.httpError 401) true true =
      { outcome := CallOutcome.rejectedStatus 401, attempts := 2,
        refreshAttempts := 1 } :=
  ⟨(one_refresh_and_retry_cycle_per_request (fun _ => HttpResponse.httpError 401)
      true true).1,
   (one_refresh_and_retry_cycle_per_request (fun _ => HttpResponse.httpError 401)
      true true).2.2 (fun _ => rfl) rfl rfl⟩

/-- C5: one detected row-level-security permission error trips the circuit
breaker: the sync flag is cleared and a 5-minute re-enable timer armed;
sync attempts during the cooldown are skipped entirely; once the deadline
passes the timer restores the flag and attempts resume automatically; the
permission-error path makes no credential refresh call; and enqueues during
the cooldown still succeed, recording the operation as pending. -/
theorem permission_error_circuit_breaker
    (t : Nat) (st : ApiSyncState) (msg : String)
    (henabled : st.useSyncToSupabase = true) (htimer : st.reEnableAt = none) :
    (syncInteractionsStep t true true true
        (SupabaseSyncResult.rlsError msg) st).2 = true ∧
    (syncInteractionsStep t true true true
        (SupabaseSyncResult.rlsError msg) st).1.useSyncToSupabase = false ∧
    (syncInteractionsStep t true true true
        (SupabaseSyncResult.rlsError msg) st).1.reEnableAt =
      some (t + 5 * 60 * 1000) ∧
    (syncInteractionsStep t true true true
        (SupabaseSyncResult.rlsError msg) st).1.refreshCalls = st.refreshCalls ∧
    (∀ (t2 : Nat) (result : SupabaseSyncResult), t2 < t + 5 * 60 * 1000 →
      (syncInteractionsStep t2 true true true result
        (syncInteractionsStep t true true true
          (SupabaseSyncResult.rlsError msg) st).1).2 = false) ∧
    (∀ (t3 : Nat) (result : SupabaseSyncResult), t + 5 * 60 * 1000 ≤ t3 →
      (syncInteractionsStep t3 true true true result
        (syncInteractionsStep t true true true
          (SupabaseSyncResult.rlsError msg) st).1).2 = true) ∧
    (∀ (s : ServiceState) (tq : Nat) (a : OpAction) (r d : String),
      s.isInitialized = true →
      (queueOperation false tq a r d s).ok = true ∧
      (queueOperation false tq a r d s).state.queue =
        s.queue ++ [{ id := r ++ "-" ++ d ++ "-" ++ toString tq, action := a,
                      timestamp := tq, resource := r, dataId := d,
                      status := OpStatus.pending, retryCount := 0 }]) := by
  have hstep :
      (syncInteractionsStep t true true true
        (SupabaseSyncResult.rlsError msg) st).1 =
      { st with useSyncToSupabase := false,
                reEnableAt := some (t + 5 * 60 * 1000) } := by
    simp [syncInteractionsStep, fireReEnable, henabled, htimer]
  refine ⟨?_, ?_, ?_, ?_, ?_, ?_, ?_⟩
  · simp [syncInteractionsStep, fireReEnable, henabled, htimer]
  · rw [hstep]
  · rw [hstep]
  · rw [hstep]
  · intro t2 result h2
    rw [hstep]
    have hlt : ¬(t + 5 * 60 * 1000 ≤ t2) := by omega
    cases result <;> simp [syncInteractionsStep, fireReEnable, hlt]
  · intro t3 result h3
    rw [hstep]
    cases result <;> simp [syncInteractionsStep, fireReEnable, h3]
  · intro s tq a r d hinit
    constructor
    · simp [queueOperation, hinit]
    · simp [queueOperation, hinit]

/-- Witness for the circuit breaker theorem: concrete error at time 1000,
skipped attempt at 1500, resumed attempt at 301000, successful enqueue. -/
theorem permission_error_circuit_breaker_witness :
    (syncInteractionsStep 1000 true true true
        (SupabaseSyncResult.rlsError "permission denied")
        { useSyncToSupabase := true, reEnableAt := none,
          refreshCalls := 0 }).1.useSyncToSupabase = false ∧
    (syncInteractionsStep 1500 true true true (SupabaseSyncResult.success 3)
        (syncInteractionsStep 1000 true true true
          (SupabaseSyncResult.rlsError "permission denied")
          { useSyncToSupabase := true, reEnableAt := none,
            refreshCalls := 0 }).1).2 = false ∧
    (syncInteractionsStep 301000 true true true (SupabaseSyncResult.success 3)
        (syncInteractionsStep 1000 true true true
          (SupabaseSyncResult.rlsError "permission denied")
          { useSyncToSupabase := true, reEnableAt := none,
            refreshCalls := 0 }).1).2 = true ∧
    (queueOperation false 2000 OpAction.create "interaction" "A"
        emptyOnlineService).ok = true :=
  ⟨(permission_error_circuit_breaker 1000 _ "permission denied" rfl rfl).2.1,
   (permission_error_circuit_breaker 1000 _ "permission denied" rfl rfl).2.2.2.2.1
     1500 (SupabaseSyncResult.success 3) (by decide),
   (permission_error_circuit_breaker 1000 _ "permission denied" rfl rfl).2.2.2.2.2.1
     301000 (SupabaseSyncResult.success 3) (by decide),
   ((permission_error_circuit_breaker 1000
       { useSyncToSupabase := true, reEnableAt := none, refreshCalls := 0 }
       "permission denied" rfl rfl).2.2.2.2.2.2 emptyOnlineService 2000
     OpAction.create "interaction" "A" rfl).1⟩

/-- Membership in a take prefix in terms of an index below the cutoff. -/
theorem mem_take_iff_index {α : Type} (l : List α) (n : Nat) (a : α) :
    a ∈ l.take n ↔ ∃ i, i < n ∧ ∃ h : i < l.length, l[i] = a := by
  constructor
  · intro hmem
    obtain ⟨i, hi, heq⟩ := List.getElem_of_mem hmem
    have hlen := hi
    rw [List.length_take] at hlen
    refine ⟨i, by omega, by omega, ?_⟩
    rw [← heq, List.getElem_take]
  · rintro ⟨i, hin, hlt, rfl⟩
    have hitake : i < (l.take n).length := by
      rw [List.length_take]
      omega
    have hsame : (l.take n)[i] = l[i] := List.getElem_take l
    rw [← hsame]
    exact List.getElem_mem hitake

/-- The stable-sort determinization the scheduler model runs is one of the
results the query contract allows. -/
theorem validBatch_pendingBatch (q : List SyncOperation) (limit : Nat) :
    validBatch q limit (pendingBatch q limit) :=
  ⟨(q.filter (fun op => op.status == OpStatus.pending)).insertionSort tsle,
   List.perm_insertionSort tsle _,
   List.sorted_insertionSort tsle _,
   by rfl⟩

/-- Every allowed query result consists of at most limit pending rows of
the table, is sorted by timestamp ascending, and contains only the oldest
pending rows: a fetched row is never younger than a pending row left
behind. -/
theorem validBatch_shape (q : List SyncOperation) (limit : Nat)
    (b : List SyncOperation) (hvb : validBatch q limit b) :
    b.Pairwise tsle ∧ b.length ≤ limit ∧
    (∀ o ∈ b, o ∈ q ∧ o.status = OpStatus.pending) ∧
    (∀ o ∈ b, ∀ p ∈ q, p.status = OpStatus.pending → p ∉ b →
      o.timestamp ≤ p.timestamp) := by
  obtain ⟨σ, hperm, hsorted, rfl⟩ := hvb
  refine ⟨List.Pairwise.sublist (List.take_sublist limit σ) hsorted,
    List.length_take_le limit σ, ?_, ?_⟩
  · intro o ho
    have hoσ : o ∈ σ := (List.take_sublist limit σ).subset ho
    have hof := List.mem_filter.1 (hperm.mem_iff.1 hoσ)
    exact ⟨hof.1, by simpa using hof.2⟩
  · intro o ho p hpq hpend hpnb
    obtain ⟨io, hio, hioσ, hoeq⟩ := (mem_take_iff_index σ limit o).1 ho
    have hpσ : p ∈ σ := hperm.mem_iff.2 (List.mem_filter.2 ⟨hpq, by simp [hpend]⟩)
    obtain ⟨ip, hipσ, hpeq⟩ := List.getElem_of_mem hpσ
    have hip_ge : ¬(ip < limit) := by
      intro hlt
      exact hpnb ((mem_take_iff_index σ limit p).2 ⟨ip, hlt, hipσ, hpeq⟩)
    have hts : tsle σ[io] σ[ip] :=
      (List.pairwise_iff_getElem.1 hsorted) io ip hioσ hipσ (by omega)
    rw [hoeq, hpeq] at hts
    exact hts

/-- For two rows of the same entity in a queue with non-decreasing
timestamps, unique ids (the primary key) and ids of the enqueue shape
resource-dataId-timestamp, every allowed query result that fetches the
later row fetches the earlier row too, at a strictly earlier position: the
key forces same-entity rows onto distinct timestamps, so the timestamp sort
alone already orders them by insertion. -/
theorem validBatch_entity_fifo (q : List SyncOperation) (limit : Nat)
    (b : List SyncOperation) (u c : SyncOperation)
    (hvb : validBatch q limit b)
    (hsorted : q.Pairwise tsle)
    (hnodup : (q.map (fun o => o.id)).Nodup)
    (hids : ∀ o ∈ q,
      o.id = o.resource ++ "-" ++ o.dataId ++ "-" ++ toString o.timestamp)
    (hsub : List.Sublist [u, c] q)
    (hres : u.resource = c.resource) (hdat : u.dataId = c.dataId)
    (hu : u.status = OpStatus.pending) (hc : c ∈ b) :
    ∃ i j : Nat, i < j ∧ b[i]? = some u ∧ b[j]? = some c := by
  obtain ⟨σ, hperm, hσsorted, rfl⟩ := hvb
  have hidsub : List.Sublist [u.id, c.id] (q.map (fun o => o.id)) := by
    have hm := hsub.map (fun o => o.id)
    simpa using hm
  have hidne : u.id ≠ c.id := by
    have hnd := List.Nodup.sublist hidsub hnodup
    simpa using hnd
  have huq : u ∈ q := hsub.subset (by simp)
  have hcq : c ∈ q := hsub.subset (by simp)
  have hle : u.timestamp ≤ c.timestamp := by
    have hp := List.pairwise_cons.1 (List.Pairwise.sublist hsub hsorted)
    exact hp.1 c (by simp)
  have hne : u.timestamp ≠ c.timestamp := by
    intro heq
    apply hidne
    rw [hids u huq, hids c hcq, hres, hdat, heq]
  have hlt : u.timestamp < c.timestamp := Nat.lt_of_le_of_ne hle hne
  obtain ⟨pc, hpc, hpcσ, hceq⟩ := (mem_take_iff_index σ limit c).1 hc
  have huσ : u ∈ σ := hperm.mem_iff.2 (List.mem_filter.2 ⟨huq, by simp [hu]⟩)
  obtain ⟨pu, hpuσ, hueq⟩ := List.getElem_of_mem huσ
  have hpupc : pu < pc := by
    rcases Nat.lt_trichotomy pu pc with h | h | h
    · exact h
    · exfalso
      apply hne
      subst h
      rw [← hueq, ← hceq]
    · exfalso
      have hts : tsle σ[pc] σ[pu] :=
        (List.pairwise_iff_getElem.1 hσsorted) pc pu hpcσ hpuσ h
      rw [hceq, hueq] at hts
      have hcle : c.timestamp ≤ u.timestamp := hts
      omega
  refine ⟨pu, pc, hpupc, ?_, ?_⟩
  · rw [List.getElem?_take_of_lt (by omega), List.getElem?_eq_getElem hpuσ,
      hueq]
  · rw [List.getElem?_take_of_lt hpc, List.getElem?_eq_getElem hpcσ, hceq]

/-- C6 counterexample: the query contract does not determine the order of
equal-timestamp rows.  For two pending rows of distinct entities carrying
the same timestamp, the reversed order is as much an allowed result of the
batch query as insertion order is - the query sorts by timestamp only,
with no secondary key - so the claimed insertion-order tie-break, and the
attempt order it dictates, is not a property of the program; the stable
sort the scheduler model runs is only one allowed result. -/
theorem tie_order_not_program_determined :
    validBatch [opTieA, opTieB] 10 [opTieB, opTieA] ∧
    validBatch [opTieA, opTieB] 10 [opTieA, opTieB] ∧
    [opTieB, opTieA] ≠ pendingBatch [opTieA, opTieB] 10 ∧
    opTieA.timestamp = opTieB.timestamp ∧
    opTieA.status = OpStatus.pending ∧ opTieB.status = OpStatus.pending :=
  ⟨⟨[opTieB, opTieA], by decide, by decide, rfl⟩,
   ⟨[opTieA, opTieB], by decide, by decide, rfl⟩,
   by decide, rfl, rfl, rfl⟩

/-- C6 amended: every result the batch query can return consists of at most
10 of the oldest pending rows sorted by timestamp ascending (ties in
unspecified order, as the query has no secondary sort key), and a sync pass
attempts delivery in exactly the fetched order - the scheduler model runs
the stable-sort result, which is one allowed fetch.  For two operations on
the same entity, the primary key on the id resource-dataId-timestamp forces
distinct timestamps, so with enqueue-time (non-decreasing) timestamp
assignment the one enqueued first precedes the other in every allowed
fetch that contains the later one: per-entity submission order is
preserved, never reordered by action type; concretely, enqueuing update(A)
and then create(A) at a later millisecond is attempted update first. -/
theorem batch_oldest_sorted_and_entity_fifo :
    (∀ (q : List SyncOperation) (limit : Nat),
      validBatch q limit (pendingBatch q limit)) ∧
    (∀ (s : ServiceState) (deliver : SyncOperation → DeliveryResult) (now : Nat),
      s.isInitialized = true → s.isOnline = true → s.isSyncing = false →
      (syncPendingOperations deliver now s).attempted =
        (pendingBatch s.queue 10).map (fun op => op.id)) ∧
    (∀ (q : List SyncOperation) (limit : Nat) (b : List SyncOperation),
      validBatch q limit b →
      b.Pairwise tsle ∧ b.length ≤ limit ∧
      (∀ o ∈ b, o ∈ q ∧ o.status = OpStatus.pending) ∧
      (∀ o ∈ b, ∀ p ∈ q, p.status = OpStatus.pending → p ∉ b →
        o.timestamp ≤ p.timestamp)) ∧
    (∀ (q : List SyncOperation) (limit : Nat) (b : List SyncOperation)
        (u c : SyncOperation),
      validBatch q limit b → q.Pairwise tsle →
      (q.map (fun o => o.id)).Nodup →
      (∀ o ∈ q,
        o.id = o.resource ++ "-" ++ o.dataId ++ "-" ++ toString o.timestamp) →
      List.Sublist [u, c] q → u.resource = c.resource → u.dataId = c.dataId →
      u.status = OpStatus.pending → c ∈ b →
      ∃ i j : Nat, i < j ∧ b[i]? = some u ∧ b[j]? = some c) ∧
    (∀ t1 t2 : Nat, t1 < t2 →
      ((pendingBatch
          (queueOperation false t2 OpAction.create "interaction" "A"
            (queueOperation false t1 OpAction.update "interaction" "A"
              offlineService).state).state.queue 10).map
        (fun op => op.action)) = [OpAction.update, OpAction.create]) := by
  refine ⟨validBatch_pendingBatch, ?_, validBatch_shape,
    validBatch_entity_fifo, ?_⟩
  · intro s deliver now hinit hon hsy
    obtain ⟨ii, io, pc, isy, lt, q, it, nt⟩ := s
    dsimp only at hinit hon hsy
    subst hinit hon hsy
    unfold syncPendingOperations
    simp only [Bool.not_true, Bool.or_self, Bool.or_false, Bool.false_or,
      Bool.false_eq_true, if_false, notify_queue]
    split
    · next hemp =>
        rw [List.isEmpty_iff.mp hemp]
        rfl
    · split <;> rfl
  · intro t1 t2 h12
    have hq : (queueOperation false t2 OpAction.create "interaction" "A"
        (queueOperation false t1 OpAction.update "interaction" "A"
          offlineService).state).state.queue =
        [{ id := "interaction" ++ "-" ++ "A" ++ "-" ++ toString t1,
           action := OpAction.update, timestamp := t1,
           resource := "interaction", dataId := "A",
           status := OpStatus.pending, retryCount := 0 },
         { id := "interaction" ++ "-" ++ "A" ++ "-" ++ toString t2,
           action := OpAction.create, timestamp := t2,
           resource := "interaction", dataId := "A",
           status := OpStatus.pending, retryCount := 0 }] := by
      simp [queueOperation, offlineService]
    rw [hq]
    unfold pendingBatch
    rw [List.Sorted.insertionSort_eq (List.Pairwise.sublist
      (List.filter_sublist _)
      (List.pairwise_cons.2
        ⟨by
          intro b hb
          rw [List.mem_singleton.mp hb]
          exact Nat.le_of_lt h12,
         List.pairwise_singleton tsle _⟩))]
    rfl

/-- Witness for the amended batch theorem: the stable-sort fetch of the
concrete queue update(A) at 1 then create(A) at 2 is an allowed result; in
it the update row sits at a strictly earlier position than the create row;
and the concrete enqueue pair is attempted update first. -/
theorem batch_oldest_sorted_and_entity_fifo_witness :
    validBatch [opFifoU, opFifoC] 10 (pendingBatch [opFifoU, opFifoC] 10) ∧
    (∃ i j : Nat, i < j ∧
      (pendingBatch [opFifoU, opFifoC] 10)[i]? = some opFifoU ∧
      (pendingBatch [opFifoU, opFifoC] 10)[j]? = some opFifoC) ∧
    ((pendingBatch
        (queueOperation false 2 OpAction.create "interaction" "A"
          (queueOperation false 1 OpAction.update "interaction" "A"
            offlineService).state).state.queue 10).map
      (fun op => op.action)) = [OpAction.update, OpAction.create] :=
  ⟨batch_oldest_sorted_and_entity_fifo.1 [opFifoU, opFifoC] 10,
   batch_oldest_sorted_and_entity_fifo.2.2.2.1 [opFifoU, opFifoC] 10
     (pendingBatch [opFifoU, opFifoC] 10) opFifoU opFifoC
     (batch_oldest_sorted_and_entity_fifo.1 [opFifoU, opFifoC] 10)
     (by decide) (by decide) (by decide) (List.Sublist.refl _)
     rfl rfl rfl (by decide),
   batch_oldest_sorted_and_entity_fifo.2.2.2.2 1 2 (by decide)⟩

/-- C7: on every offline-to-online transition the handler itself fires a
sync (no timer event occurs in this run), so a queue of 3 pending
operations whose deliveries all succeed drains to pendingCount 0 with the
scheduler back to idle; on an online-to-offline transition the handler
only clears the online flag and notifies listeners - the queue, the
isSyncing flag and every other field are untouched, cancelling nothing. -/
theorem connectivity_transition_behavior :
    (∀ (s : ServiceState) (deliver : SyncOperation → DeliveryResult)
        (now fuel : Nat),
      s.isInitialized = true → s.isOnline = false → s.isSyncing = false →
      (∀ x, deliver x = DeliveryResult.ok) → countPending s.queue = 3 →
      (handleConnectionChange deliver now (fuel + 1) true s).pendingSyncCount = 0 ∧
      (handleConnectionChange deliver now (fuel + 1) true s).isSyncing = false) ∧
    (∀ (s : ServiceState) (deliver : SyncOperation → DeliveryResult)
        (now fuel : Nat),
      s.isOnline = true →
      handleConnectionChange deliver now fuel false s =
        notifySyncStatusListeners { s with isOnline := false }) := by
  constructor
  · intro s deliver now fuel hinit hoff hsy hok hcnt
    obtain ⟨ii, io, pc, isy, lt, q, it, nt⟩ := s
    dsimp only at hinit hoff hsy hcnt
    subst hinit hoff hsy
    have hdr := syncPass_ok_drains deliver now
      ⟨true, true, pc, false, lt, q, it, nt⟩ hok rfl rfl rfl
      (by dsimp only; omega) (by dsimp only; omega)
    unfold handleConnectionChange runSyncChain
    simp only [Bool.not_false, Bool.true_and, Bool.and_true, if_true,
      hdr.2.2.1, Bool.false_eq_true, if_false, notify_pendingSyncCount,
      notify_isSyncing]
    exact ⟨hdr.1, hdr.2.1⟩
  · intro s deliver now fuel hon
    unfold handleConnectionChange
    rw [hon]
    rfl

/-- Witness for the connectivity transition theorem: 3 operations enqueued
while offline drain on the online transition; the offline transition from
the online empty service only flips the flag and notifies. -/
theorem connectivity_transition_behavior_witness :
    ((handleConnectionChange deliverAllOk 50 1 true (enqueueAll 3)).pendingSyncCount = 0 ∧
     (handleConnectionChange deliverAllOk 50 1 true (enqueueAll 3)).isSyncing = false) ∧
    handleConnectionChange deliverAllOk 50 1 false emptyOnlineService =
      notifySyncStatusListeners { emptyOnlineService with isOnline := false } :=
  ⟨connectivity_transition_behavior.1 (enqueueAll 3) deliverAllOk 50 0
      (by decide) (by decide) (by decide) (fun _ => rfl) (by decide),
   connectivity_transition_behavior.2 emptyOnlineService deliverAllOk 50 1 rfl⟩

/-- C9 amended: when the service is offline or a sync pass is already in
progress, the sync entry point returns at once leaving the state fully
unchanged, not an error; when it is online and idle but no operation is
pending, it attempts no delivery and raises no error, but it is not a pure
no-op: isSyncing is toggled on and back off, listeners are notified twice,
and lastSyncTime is set to now. -/
theorem sync_entry_guards_and_empty_branch :
    (∀ (s : ServiceState) (deliver : SyncOperation → DeliveryResult) (now : Nat),
      s.isOnline = false ∨ s.isSyncing = true →
      syncPendingOperations deliver now s =
        { state := s, scheduledFollowUp := false, attempted := [] }) ∧
    (∀ (s : ServiceState) (deliver : SyncOperation → DeliveryResult) (now : Nat),
      s.isInitialized = true → s.isOnline = true → s.isSyncing = false →
      countPending s.queue = 0 →
      (syncPendingOperations deliver now s).attempted = [] ∧
      (syncPendingOperations deliver now s).scheduledFollowUp = false ∧
      (syncPendingOperations deliver now s).state.queue = s.queue ∧
      (syncPendingOperations deliver now s).state.isSyncing = false ∧
      (syncPendingOperations deliver now s).state.lastSyncTime = some now ∧
      (syncPendingOperations deliver now s).state.pendingSyncCount =
        s.pendingSyncCount ∧
      (syncPendingOperations deliver now s).state.notifications.length =
        s.notifications.length + 2) := by
  constructor
  · intro s deliver now hguard
    unfold syncPendingOperations
    rcases hguard with h | h <;> rw [h] <;> simp
  · intro s deliver now hinit hon hsy hcnt
    obtain ⟨ii, io, pc, isy, lt, q, it, nt⟩ := s
    dsimp only at hinit hon hsy hcnt
    subst hinit hon hsy
    have hemp : (pendingBatch q 10).isEmpty = true := by
      rw [pendingBatch_isEmpty_iff q 10 (by omega)]
      exact hcnt
    unfold syncPendingOperations
    simp only [Bool.not_true, Bool.or_self, Bool.or_false, Bool.false_or,
      Bool.false_eq_true, if_false, notify_queue, hemp, if_true]
    simp [notifySyncStatusListeners]

/-- Witness for the sync entry guard theorem: the offline service is left
exactly unchanged; the online idle empty service gets the empty-batch
treatment. -/
theorem sync_entry_guards_and_empty_branch_witness :
    syncPendingOperations deliverAllOk 5 offlineService =
      { state := offlineService, scheduledFollowUp := false, attempted := [] } ∧
    ((syncPendingOperations deliverAllOk 5 emptyOnlineService).attempted = [] ∧
      (syncPendingOperations deliverAllOk 5 emptyOnlineService).scheduledFollowUp = false ∧
      (syncPendingOperations deliverAllOk 5 emptyOnlineService).state.queue =
        emptyOnlineService.queue ∧
      (syncPendingOperations deliverAllOk 5 emptyOnlineService).state.isSyncing = false ∧
      (syncPendingOperations deliverAllOk 5 emptyOnlineService).state.lastSyncTime = some 5 ∧
      (syncPendingOperations deliverAllOk 5 emptyOnlineService).state.pendingSyncCount =
        emptyOnlineService.pendingSyncCount ∧
      (syncPendingOperations deliverAllOk 5 emptyOnlineService).state.notifications.length =
        emptyOnlineService.notifications.length + 2) :=
  ⟨sync_entry_guards_and_empty_branch.1 offlineService deliverAllOk 5 (Or.inl rfl),
   sync_entry_guards_and_empty_branch.2 emptyOnlineService deliverAllOk 5
     rfl rfl rfl rfl⟩

/-- The guarded notification loop invokes every listener in order no matter
which callbacks throw: the invocation log grows by one entry per registered
listener. -/
theorem notifyLoop_eq (ev : SyncStatusEvent) :
    ∀ (ls : List Listener) (log : List (Nat × SyncStatusEvent)),
      notifyLoop ev ls log = log ++ ls.map (fun x => (x.id, ev))
  | [], log => by simp [notifyLoop]
  | l :: ls, log => by
      unfold notifyLoop
      cases h : callListener l ev <;>
        rw [notifyLoop_eq ev ls] <;> simp

/-- C10: registering a listener pushes it onto the listener array first and
then invokes it synchronously with the current snapshot under no exception
guard: a throwing callback makes addSyncStatusListener itself throw, so no
unsubscribe closure is returned, yet the listener stays registered and
receives every later notification - unlike the transition notification
loop, which catches each listener exception individually and always
invokes every listener. -/
theorem listener_registered_despite_throwing
    (b : BusState) (l : Listener) (ev ev2 : SyncStatusEvent)
    (hthrows : l.throws = true) :
    (addSyncStatusListener l ev b).2 =
      Except.error "listener callback threw" ∧
    (addSyncStatusListener l ev b).1.listeners = b.listeners ++ [l] ∧
    (l.id, ev2) ∈ (notifyListeners ev2 (addSyncStatusListener l ev b).1).invoked ∧
    (∀ (ls : List Listener) (log : List (Nat × SyncStatusEvent)),
      notifyLoop ev2 ls log = log ++ ls.map (fun x => (x.id, ev2))) := by
  refine ⟨?_, ?_, ?_, fun ls log => notifyLoop_eq ev2 ls log⟩
  · simp [addSyncStatusListener, callListener, hthrows]
  · simp [addSyncStatusListener, callListener, hthrows]
  · simp [notifyListeners, notifyLoop_eq, addSyncStatusListener,
      callListener, hthrows]

/-- Witness for the listener registration theorem at a concrete throwing
listener on an empty bus. -/
theorem listener_registered_despite_throwing_witness :
    (addSyncStatusListener ⟨0, true⟩
        ⟨true, 0, false, none⟩ ⟨[], []⟩).2 =
      Except.error "listener callback threw" ∧
    (addSyncStatusListener ⟨0, true⟩
        ⟨true, 0, false, none⟩ ⟨[], []⟩).1.listeners = [] ++ [⟨0, true⟩] ∧
    ((0 : Nat), (⟨false, 1, false, none⟩ : SyncStatusEvent)) ∈
      (notifyListeners ⟨false, 1, false, none⟩
        (addSyncStatusListener ⟨0, true⟩
          ⟨true, 0, false, none⟩ ⟨[], []⟩).1).invoked :=
  ⟨(listener_registered_despite_throwing ⟨[], []⟩ ⟨0, true⟩
      ⟨true, 0, false, none⟩ ⟨false, 1, false, none⟩ rfl).1,
   (listener_registered_despite_throwing ⟨[], []⟩ ⟨0, true⟩
      ⟨true, 0, false, none⟩ ⟨false, 1, false, none⟩ rfl).2.1,
   (listener_registered_despite_throwing ⟨[], []⟩ ⟨0, true⟩
      ⟨true, 0, false, none⟩ ⟨false, 1, false, none⟩ rfl).2.2.1⟩

end ProjectTree
